import Mathlib

/-!
Verification of `gen_station_regions.py`: a script that maps NCDC station
coordinates to CCAFS region codes.  The Python source is shallowly embedded:
machine integers become `ℤ`, the parsed floating point coordinate values
become `ℚ`, string fields become `String` / `List Char`, and the per-line
processing of `main` becomes an explicit function from a line and its
1-based line number to an optional output line and an optional diagnostic.
-/

namespace NCDC

/-- Longitude normalisation at the top of `get_region`:
`if abs(lon) == 180: lon = -lon`. -/
def normLon (lon : ℤ) : ℤ :=
  if |lon| = 180 then -lon else lon

/-- Embedding of `get_region(lat, lon)`.  Python 2 `/` on ints is floor
division, hence `Int.fdiv`.  `"CBAA"[i]` is the `i`-th character of the
string; indices reached by the code are in bounds (proved below), so the
`getD` default is never used. -/
def get_region (lat lon : ℤ) : String :=
  let lon := normLon lon
  if lat < -60 ∨ lat > 90 ∨ lon < -180 ∨ lon > 179 then "D"
  else
    String.mk [List.getD "CBAA".data ((lat + 60).fdiv 50).toNat 'X'] ++
      toString ((lon + 180).fdiv 60 + 1)

/-- Python `int()` applied to a real value: truncation toward zero. -/
def pyint (q : ℚ) : ℤ := if 0 ≤ q then ⌊q⌋ else ⌈q⌉

/-- Embedding of `int(float_lat + 90) - 90`, the latitude truncation in `main`. -/
def latAdjust (v : ℚ) : ℤ := pyint (v + 90) - 90

/-- Embedding of `int(float_lon + 180) - 180`, the longitude truncation in `main`. -/
def lonAdjust (v : ℚ) : ℤ := pyint (v + 180) - 180

/-- Python `line.split(",")` on the character list of the line: split at
every comma, keeping empty pieces (so the result is never empty). -/
def splitComma : List Char → List (List Char)
  | [] => [[]]
  | c :: cs =>
    if c = ',' then [] :: splitComma cs
    else
      match splitComma cs with
      | f :: rest => (c :: f) :: rest
      | [] => [[c]]

/-- Python `s[1:-1]`: drop the first and last characters (used to strip the
surrounding quotes off CSV fields). -/
def strip1 (cs : List Char) : List Char := (cs.drop 1).dropLast

/-- The regex `^\d{6}-\d{5}$` on a 12-character candidate: six ASCII digits,
a hyphen, five ASCII digits. -/
def idCore (cs : List Char) : Bool :=
  decide (cs.length = 12) && (cs.take 6).all Char.isDigit &&
    decide (cs.getD 6 ' ' = '-') && (cs.drop 7).all Char.isDigit

/-- Embedding of `valid_id.match(station)`: Python `$` also matches just before a single
trailing newline, so that form is accepted as well. -/
def valid_id_match (cs : List Char) : Bool :=
  idCore cs ||
    (match cs.getLast? with
     | some c => decide (c = '\n') && idCore cs.dropLast
     | none => false)

/-- One iteration of the loop in `main`, for the line with 1-based number
`n`.  `parse` stands for Python `float(...)` on a field with its quotes
stripped: `none` models any exception raised while parsing.  The result is
(stdout line if any, stderr diagnostic if any). -/
def processLine (parse : String → Option ℚ) (n : ℕ) (line : String) :
    Option String × Option String :=
  if n = 1 then (none, none)
  else
    let fields := splitComma line.data
    if fields.length < 8 then
      (none, some ( "Too few fields on line " ++ toString n ++ "\n"))
    else
      let station := strip1 (fields.getD 0 []) ++ [ '-'] ++ strip1 (fields.getD 1 [])
      if ¬ valid_id_match station then
        (none, some ( "Invalid station \x27" ++ String.mk station ++
          "\x27 on line " ++ toString n ++ "\n"))
      else
        let region :=
          match parse (String.mk (strip1 (fields.getD 6 []))),
                parse (String.mk (strip1 (fields.getD 7 []))) with
          | some vlat, some vlon => get_region (latAdjust vlat) (lonAdjust vlon)
          | _, _ => "D"
        (some ( String.mk station ++ "\t" ++ region), none)

/-- The loop in `main` starting at line number `n`. -/
def runFrom (parse : String → Option ℚ) (n : ℕ) :
    List String → List (Option String × Option String)
  | [] => []
  | l :: ls => processLine parse n l :: runFrom parse (n + 1) ls

/-- The whole per-line pipeline of `main` over the input lines, with 1-based
line numbering. -/
def run (parse : String → Option ℚ) (lines : List String) :
    List (Option String × Option String) :=
  runFrom parse 1 lines

/-! ### Helper lemmas about `get_region` -/

/-- If the normalised longitude and the latitude pass the bounds check, the
row index is between 0 and 3. -/
lemma row_index_bounds (lat : ℤ) (h1 : -60 ≤ lat) (h2 : lat ≤ 90) :
    0 ≤ (lat + 60).fdiv 50 ∧ (lat + 60).fdiv 50 ≤ 3 := by
  rw [Int.fdiv_eq_ediv _ (by omega)]
  omega

lemma col_bounds (lon : ℤ) (h1 : -180 ≤ lon) (h2 : lon ≤ 179) :
    1 ≤ (lon + 180).fdiv 60 + 1 ∧ (lon + 180).fdiv 60 + 1 ≤ 6 := by
  rw [Int.fdiv_eq_ediv _ (by omega)]
  omega

/-- The rendered column number is one of the digit characters 1 to 6. -/
lemma col_toString (c : ℤ) (h1 : 1 ≤ c) (h2 : c ≤ 6) :
    ∃ ch, toString c = String.mk [ch] ∧ ('1' : Char) ≤ ch ∧ ch ≤ '6' := by
  interval_cases c
  · exact ⟨'1', by decide, by decide, by decide⟩
  · exact ⟨'2', by decide, by decide, by decide⟩
  · exact ⟨'3', by decide, by decide, by decide⟩
  · exact ⟨'4', by decide, by decide, by decide⟩
  · exact ⟨'5', by decide, by decide, by decide⟩
  · exact ⟨'6', by decide, by decide, by decide⟩

/-- The row character drawn from `"CBAA"` is A, B or C whenever the index is
in bounds. -/
lemma row_char (k : ℕ) (hk : k ≤ 3) :
    List.getD "CBAA".data k 'X' = 'A' ∨ List.getD "CBAA".data k 'X' = 'B' ∨
      List.getD "CBAA".data k 'X' = 'C' := by
  interval_cases k
  · exact Or.inr (Or.inr (by decide))
  · exact Or.inr (Or.inl (by decide))
  · exact Or.inl (by decide)
  · exact Or.inl (by decide)

/-- Evaluation of `get_region` when the bounds check passes. -/
lemma get_region_in (lat lon : ℤ) (h1 : -60 ≤ lat) (h2 : lat ≤ 90)
    (h3 : -180 ≤ normLon lon) (h4 : normLon lon ≤ 179) :
    get_region lat lon =
      String.mk [List.getD "CBAA".data ((lat + 60).fdiv 50).toNat 'X'] ++
        toString ((normLon lon + 180).fdiv 60 + 1) := by
  simp only [get_region]
  rw [if_neg (by omega)]

/-- Evaluation of `get_region` when the bounds check fails. -/
lemma get_region_out (lat lon : ℤ)
    (h : lat < -60 ∨ lat > 90 ∨ normLon lon < -180 ∨ normLon lon > 179) :
    get_region lat lon = "D" := by
  simp only [get_region]
  rw [if_pos h]

lemma normLon_id (lon : ℤ) (h1 : lon ≠ 180) (h2 : lon ≠ -180) :
    normLon lon = lon := by
  unfold normLon
  rw [if_neg]
  intro habs
  rcases (abs_eq (by norm_num)).1 habs with h | h <;> omega

/-- For any latitude, longitude -180 is flipped to +180 and rejected. -/
lemma region_lonNeg180 (lat : ℤ) : get_region lat (-180) = "D" := by
  apply get_region_out
  right; right; right
  decide

/-- For an in-range latitude, longitude +180 is flipped to -180 and lands in
column 1. -/
lemma region_lon180 (lat : ℤ) (h1 : -60 ≤ lat) (h2 : lat ≤ 90) :
    ∃ r, get_region lat 180 = String.mk [r, '1'] ∧
      (r = 'A' ∨ r = 'B' ∨ r = 'C') := by
  have hn : normLon 180 = -180 := by decide
  have h := get_region_in lat 180 h1 h2 (by rw [hn]) (by rw [hn]; norm_num)
  rw [hn, show ((-180 : ℤ) + 180).fdiv 60 + 1 = 1 from by decide] at h
  refine ⟨List.getD "CBAA".data ((lat + 60).fdiv 50).toNat 'X', ?_, ?_⟩
  · rw [h]; exact rfl
  · obtain ⟨hi0, hi3⟩ := row_index_bounds lat h1 h2
    exact row_char _ (by omega)

/-! ### Claims about the region classifier -/

/-- C1 counterexample: latitude 0 and longitude -180 are inside the domain
claimed by C1, yet `get_region` returns the fallback code D (the
normalisation flips -180 to +180, which then fails the bounds check), so the
result is not a two-character [ABC][1-6] code. -/
theorem c1_counterexample :
    get_region 0 (-180) = "D" ∧ (get_region 0 (-180)).data.length ≠ 2 := by
  decide

/-- C1 (amended): for every integer lat in [-60, 90] and lon in [-179, 179]
(longitude -180 excluded: it is flipped out of range), `get_region` returns
a two-character code whose first character is A, B or C and whose second is
a digit from 1 to 6. -/
theorem c1_region_shape (lat lon : ℤ) (h1 : -60 ≤ lat) (h2 : lat ≤ 90)
    (h3 : -179 ≤ lon) (h4 : lon ≤ 179) :
    ∃ r c, get_region lat lon = String.mk [r, c] ∧
      (r = 'A' ∨ r = 'B' ∨ r = 'C') ∧ ('1' : Char) ≤ c ∧ c ≤ '6' := by
  have hn : normLon lon = lon := normLon_id lon (by omega) (by omega)
  have h := get_region_in lat lon h1 h2 (by omega) (by omega)
  rw [hn] at h
  obtain ⟨hc1, hc6⟩ := col_bounds lon (by omega) h4
  obtain ⟨ch, hch, hch1, hch6⟩ := col_toString _ hc1 hc6
  obtain ⟨hi0, hi3⟩ := row_index_bounds lat h1 h2
  refine ⟨List.getD "CBAA".data ((lat + 60).fdiv 50).toNat 'X', ch, ?_,
    row_char _ (by omega), hch1, hch6⟩
  rw [h, hch]
  exact rfl

/-- C1 witness. -/
theorem c1_region_shape_witness :
    (-60 : ℤ) ≤ 0 ∧ (0 : ℤ) ≤ 90 ∧ (-179 : ℤ) ≤ -179 ∧ (-179 : ℤ) ≤ 179 ∧
      ∃ r c, get_region 0 (-179) = String.mk [r, c] ∧
        (r = 'A' ∨ r = 'B' ∨ r = 'C') ∧ ('1' : Char) ≤ c ∧ c ≤ '6' :=
  ⟨by decide, by decide, by decide, by decide,
    c1_region_shape 0 (-179) (by decide) (by decide) (by decide) (by decide)⟩

/-- C2 counterexample: `get_region(-60, -180)` is D, not C1, because the
normalisation maps -180 to +180 which the bounds check rejects. -/
theorem c2_counterexample :
    get_region (-60) (-180) = "D" ∧ get_region (-60) (-180) ≠ "C1" := by
  decide

/-- C2 (amended): for every integer lat in [-60, 90], longitude +180 is
normalised to -180 and lands in column 1, while longitude -180 is
normalised to +180, fails the bounds check, and yields the fallback D; in
particular `get_region(-60, -180) = "D"`. -/
theorem c2_lon180_column1 (lat : ℤ) (h1 : -60 ≤ lat) (h2 : lat ≤ 90) :
    (∃ r, get_region lat 180 = String.mk [r, '1'] ∧
      (r = 'A' ∨ r = 'B' ∨ r = 'C')) ∧ get_region lat (-180) = "D" :=
  ⟨region_lon180 lat h1 h2, region_lonNeg180 lat⟩

/-- C2 witness. -/
theorem c2_lon180_column1_witness :
    (-60 : ℤ) ≤ -60 ∧ (-60 : ℤ) ≤ 90 ∧
      ((∃ r, get_region (-60) 180 = String.mk [r, '1'] ∧
        (r = 'A' ∨ r = 'B' ∨ r = 'C')) ∧ get_region (-60) (-180) = "D") :=
  ⟨by decide, by decide, c2_lon180_column1 (-60) (by decide) (by decide)⟩

/-- C3 counterexample: at latitude 10, `get_region(10, 180) = "A1"` while
`get_region(10, -180) = "D"`, so the claimed wraparound equivalence fails. -/
theorem c3_counterexample :
    (-60 : ℤ) ≤ 10 ∧ (10 : ℤ) ≤ 90 ∧
      get_region 10 180 ≠ get_region 10 (-180) := by
  decide

/-- C3 (amended): for every integer lat in [-60, 90] the two longitudes 180
and -180 give different results: +180 lands in column 1 while -180 is
rejected with the fallback D. -/
theorem c3_no_wraparound (lat : ℤ) (h1 : -60 ≤ lat) (h2 : lat ≤ 90) :
    get_region lat 180 ≠ get_region lat (-180) ∧
      get_region lat (-180) = "D" := by
  obtain ⟨r, hr, _⟩ := region_lon180 lat h1 h2
  refine ⟨?_, region_lonNeg180 lat⟩
  rw [hr, region_lonNeg180 lat]
  intro hcontra
  have := congrArg (fun s => s.data.length) hcontra
  simp at this

/-- C3 witness. -/
theorem c3_no_wraparound_witness :
    (-60 : ℤ) ≤ 0 ∧ (0 : ℤ) ≤ 90 ∧
      (get_region 0 180 ≠ get_region 0 (-180) ∧ get_region 0 (-180) = "D") :=
  ⟨by decide, by decide, c3_no_wraparound 0 (by decide) (by decide)⟩

/-- C4: whenever the bounds check passes on the normalised longitude,
`get_region` returns the row letter `"CBAA"[(lat+60) div 50]` concatenated
with the column number `(lon+180) div 60 + 1`, and that column number is in
[1, 6]. -/
theorem c4_region_formula (lat lon : ℤ) (h1 : -60 ≤ lat) (h2 : lat ≤ 90)
    (h3 : -180 ≤ normLon lon) (h4 : normLon lon ≤ 179) :
    get_region lat lon =
      String.mk [List.getD "CBAA".data ((lat + 60).fdiv 50).toNat 'X'] ++
        toString ((normLon lon + 180).fdiv 60 + 1) ∧
      1 ≤ (normLon lon + 180).fdiv 60 + 1 ∧
      (normLon lon + 180).fdiv 60 + 1 ≤ 6 :=
  ⟨get_region_in lat lon h1 h2 h3 h4, col_bounds _ h3 h4⟩

/-- C4 witness. -/
theorem c4_region_formula_witness :
    (-60 : ℤ) ≤ 0 ∧ (0 : ℤ) ≤ 90 ∧ (-180 : ℤ) ≤ normLon 0 ∧
      normLon 0 ≤ 179 ∧
      (get_region 0 0 =
        String.mk [List.getD "CBAA".data (((0 : ℤ) + 60).fdiv 50).toNat 'X'] ++
          toString ((normLon 0 + 180).fdiv 60 + 1) ∧
        1 ≤ (normLon 0 + 180).fdiv 60 + 1 ∧
        (normLon 0 + 180).fdiv 60 + 1 ≤ 6) :=
  ⟨by decide, by decide, by decide, by decide,
    c4_region_formula 0 0 (by decide) (by decide) (by decide) (by decide)⟩

/-- C5: latitude exactly 90 passes the bounds check and maps to row A via
the duplicated fourth entry of `"CBAA"`, so `get_region(90, 0) = "A4"`. -/
theorem c5_lat90 : get_region 90 0 = "A4" := by decide

/-- C6: whenever the latitude is out of range, or the normalised longitude
is out of range, `get_region` returns the fallback code D. -/
theorem c6_out_of_range (lat lon : ℤ)
    (h : lat < -60 ∨ lat > 90 ∨ normLon lon < -180 ∨ normLon lon > 179) :
    get_region lat lon = "D" :=
  get_region_out lat lon h

/-- C6 witness. -/
theorem c6_out_of_range_witness :
    ((91 : ℤ) < -60 ∨ (91 : ℤ) > 90 ∨ normLon 0 < -180 ∨ normLon 0 > 179) ∧
      get_region 91 0 = "D" :=
  ⟨by decide, c6_out_of_range 91 0 (by decide)⟩

/-- C10: `get_region` is total: for every pair of integers it returns
either the fallback D, or a code built from an in-bounds row index (between
0 and 3, so indexing `"CBAA"` never fails) and a column number in [1, 6]. -/
theorem c10_total (lat lon : ℤ) :
    get_region lat lon = "D" ∨
      (0 ≤ (lat + 60).fdiv 50 ∧ (lat + 60).fdiv 50 ≤ 3 ∧
        ∃ c : ℤ, 1 ≤ c ∧ c ≤ 6 ∧
          get_region lat lon =
            String.mk [List.getD "CBAA".data ((lat + 60).fdiv 50).toNat 'X'] ++
              toString c) := by
  by_cases h : lat < -60 ∨ lat > 90 ∨ normLon lon < -180 ∨ normLon lon > 179
  · exact Or.inl (get_region_out lat lon h)
  · push_neg at h
    obtain ⟨ha, hb, hc, hd⟩ := h
    obtain ⟨hr0, hr3⟩ := row_index_bounds lat (by omega) (by omega)
    obtain ⟨hc1, hc6⟩ := col_bounds (normLon lon) hc hd
    exact Or.inr ⟨hr0, hr3, (normLon lon + 180).fdiv 60 + 1, hc1, hc6,
      get_region_in lat lon (by omega) (by omega) hc hd⟩

/-! ### Claims about coordinate truncation -/

/-- C7 counterexample: at v = -90.5 the latitude computation
`int(v + 90) - 90` truncates -0.5 toward zero, giving -90, while
`floor(-90.5) = -91`. -/
theorem c7_counterexample :
    latAdjust (-181/2) = -90 ∧ (⌊(-181/2 : ℚ)⌋ : ℤ) = -91 ∧
      ((-90 : ℤ) ≠ -91) :=
  ⟨by norm_num [latAdjust, pyint], by norm_num, by decide⟩

/-- C7 (amended): the offset-then-truncate-toward-zero computation yields
`floor(v)` for every v at which the offset makes the argument non-negative:
v ≥ -90 for the latitude computation and v ≥ -180 for the longitude one.
Below those offsets it rounds toward zero of the shifted value instead. -/
theorem c7_trunc_floor (v : ℚ) :
    (-90 ≤ v → latAdjust v = ⌊v⌋) ∧ (-180 ≤ v → lonAdjust v = ⌊v⌋) := by
  constructor
  · intro h
    unfold latAdjust pyint
    rw [if_pos (by linarith)]
    rw [show (90 : ℚ) = ((90 : ℤ) : ℚ) from by norm_num, Int.floor_add_int]
    ring
  · intro h
    unfold lonAdjust pyint
    rw [if_pos (by linarith)]
    rw [show (180 : ℚ) = ((180 : ℤ) : ℚ) from by norm_num, Int.floor_add_int]
    ring

/-- C7 witness. -/
theorem c7_trunc_floor_witness :
    (-90 : ℚ) ≤ -1/2 ∧ latAdjust (-1/2) = ⌊(-1/2 : ℚ)⌋ ∧
      (-180 : ℚ) ≤ -1/2 ∧ lonAdjust (-1/2) = ⌊(-1/2 : ℚ)⌋ :=
  ⟨by norm_num, (c7_trunc_floor (-1/2)).1 (by norm_num), by norm_num,
    (c7_trunc_floor (-1/2)).2 (by norm_num)⟩

/-! ### Claims about the record pipeline -/

/-- C8: a non-header line with at least 8 fields and a valid station id, on
which parsing of either coordinate field fails, still produces an output
line whose region code is D, and no diagnostic. -/
theorem c8_parse_failure_keeps_record (parse : String → Option ℚ)
    (n : ℕ) (line : String) (hn : n ≠ 1)
    (h8 : ¬ (splitComma line.data).length < 8)
    (hid : valid_id_match
      (strip1 ((splitComma line.data).getD 0 []) ++ [ '-'] ++
        strip1 ((splitComma line.data).getD 1 [])) = true)
    (hp : parse (String.mk (strip1 ((splitComma line.data).getD 6 []))) = none ∨
      parse (String.mk (strip1 ((splitComma line.data).getD 7 []))) = none) :
    processLine parse n line =
      (some ( String.mk
        (strip1 ((splitComma line.data).getD 0 []) ++ [ '-'] ++
          strip1 ((splitComma line.data).getD 1 [])) ++ "\t" ++ "D"),
       none) := by
  unfold processLine
  rw [if_neg hn, if_neg h8, if_neg (by rw [hid]; exact fun h => h rfl)]
  rcases hp with hp | hp
  · rw [hp]
  · rw [hp]
    rcases parse (String.mk (strip1 ((splitComma line.data).getD 6 []))) with
      _ | v <;> rfl

/-- C8 witness. -/
theorem c8_parse_failure_keeps_record_witness :
    processLine (fun _ => none) 2
      "\"029070\",\"99999\",a,b,c,d,\"bad\",\"4.4\"" =
      (some ( "029070-99999\tD"), none) := by
  have h := c8_parse_failure_keeps_record (fun _ => none) 2
    "\"029070\",\"99999\",a,b,c,d,\"bad\",\"4.4\"" (by decide) (by decide)
    (by decide) (Or.inl rfl)
  rw [h]
  decide

/-- Indexing the loop of `main`: the result at position `i` is
`processLine` applied to the line at position `i` with line number
`n + i`. -/
lemma runFrom_getElem (parse : String → Option ℚ) :
    ∀ (ls : List String) (n i : ℕ),
      (runFrom parse n ls)[i]? = (ls[i]?).map (processLine parse (n + i)) := by
  intro ls
  induction ls with
  | nil => intro n i; rfl
  | cons l ls ih =>
    intro n i
    cases i with
    | zero => simp [runFrom]
    | succ j =>
      simp only [runFrom, List.getElem?_cons_succ]
      rw [ih (n + 1) j, show n + 1 + j = n + (j + 1) from by omega]

/-- C9: a non-header line (position i ≥ 1, so 1-based line number i + 1)
that splits into fewer than 8 fields produces no output line and exactly
one diagnostic naming too few fields and the line number i + 1. -/
theorem c9_too_few_fields (parse : String → Option ℚ) (lines : List String)
    (i : ℕ) (line : String) (h1 : 1 ≤ i) (h2 : lines[i]? = some line)
    (h3 : (splitComma line.data).length < 8) :
    (run parse lines)[i]? =
      some (none, some ( "Too few fields on line " ++ toString (i + 1) ++
        "\n")) := by
  rw [run, runFrom_getElem parse lines 1 i, h2, Option.map_some']
  unfold processLine
  rw [if_pos h3, if_neg (by omega)]
  rw [Nat.add_comm 1 i]

/-- C9 witness. -/
theorem c9_too_few_fields_witness :
    (run (fun _ => none) [ "HDR", "a,b,c"])[1]? =
      some (none, some ( "Too few fields on line 2\n")) := by
  have h := c9_too_few_fields (fun _ => none) [ "HDR", "a,b,c"] 1 "a,b,c"
    (by decide) (by decide) (by decide)
  rw [h]
  decide

end NCDC
